import Mathlib

/-!
Verification development for a two-party token-exchange escrow program.

The embedding mirrors `src/processor.rs` (the three handlers
`process_init_escrow`, `process_exchange`, `process_cancel`) and
`src/error.rs` (the `EscrowError` enum).  Each handler is modelled as a
pure function from a structured view of the supplied accounts to an
outcome that records, in order, every delegated call and direct account
mutation the handler performs (the effect trace), together with the final
values of the accounts the handler writes and the result of the
invocation (`none` on success, `some e` on error `e`).

Machine integers: all amounts and lamport balances are `u64` in the
source; they are modelled as `Nat`, with the one overflow-sensitive
operation (`checked_add` on lamports) modelled explicitly against
`2 ^ 64`.

External collaborators (the SPL token ledger, the rent sysvar, signature
verification, program-derived-address derivation) are modelled at the
interface the handlers consume, as the specification directs: token
accounts appear as their unpacked `(mint, amount)` view, the rent oracle
as a minimum-balance function, and the program-derived authority as a
distinguished authority tag rather than a concrete address.
-/

/-- A public identity (Solana `Pubkey`), modelled as a natural number. -/
abbrev Pubkey := Nat

/-- The view of an SPL token account that the handlers read after
`Account::unpack`: its mint (asset type) and its live balance. -/
structure TokenAccount where
  mint : Pubkey
  amount : Nat
deriving DecidableEq

/-- The escrow record persisted in the escrow slot (`state.rs`).
Field names follow the source (`Escrow` struct). -/
structure Escrow where
  is_initialized : Bool
  initializer_pubkey : Pubkey
  temp_token_account_pubkey : Pubkey
  initializer_token_to_receive_account_pubkey : Pubkey
  expected_amount : Nat
deriving DecidableEq

/-- The all-zero (Empty) escrow record. -/
def Escrow.zero : Escrow :=
  { is_initialized := false
    initializer_pubkey := 0
    temp_token_account_pubkey := 0
    initializer_token_to_receive_account_pubkey := 0
    expected_amount := 0 }

/-- Program-level errors the handlers can return.  `Custom n` carries an
`EscrowError` discriminant (`error.rs`); the rest are the
`solana_program::ProgramError` variants the handlers use. -/
inductive ProgErr where
  | MissingRequiredSignature
  | IncorrectProgramId
  | AccountNotRentExempt
  | AccountAlreadyInitialized
  | InvalidAccountData
  | UninitializedAccount
  | Custom (code : Nat)
deriving DecidableEq

namespace EscrowError

/-- `EscrowError::InvalidInstruction as u32 = 0`. -/
def InvalidInstruction : ProgErr := .Custom 0

/-- `EscrowError::ExpectedMintMismatch as u32 = 1`. -/
def ExpectedMintMismatch : ProgErr := .Custom 1

/-- `EscrowError::ExpectedAmountMismatch as u32 = 2`. -/
def ExpectedAmountMismatch : ProgErr := .Custom 2

/-- `EscrowError::NotEnoughBalanceToSent as u32 = 3`. -/
def NotEnoughBalanceToSent : ProgErr := .Custom 3

/-- `EscrowError::InvalidAccountData as u32 = 4`. -/
def InvalidAccountData : ProgErr := .Custom 4

/-- `EscrowError::AmountOverflow as u32 = 5`. -/
def AmountOverflow : ProgErr := .Custom 5

end EscrowError

/-- One more than the largest `u64` value. -/
def u64Limit : Nat := 2 ^ 64

/-- Rust `u64::checked_add`. -/
def checked_add (a b : Nat) : Option Nat :=
  if a + b < u64Limit then some (a + b) else none

/-- The escrow slot data, viewed up to the information the program reads.
`buf e` is the 105-byte fixed-width encoding of record `e`
(`[is_initialized][initializer][temp_token_account][initializer_receive_account][expected_amount]`);
`truncated` is the zero-length buffer left behind after a slot is
destroyed; `malformed n` is any other buffer, of length `n`, that does
not decode to a record. -/
inductive SlotBytes where
  | truncated
  | buf (e : Escrow)
  | malformed (n : Nat)
deriving DecidableEq

/-- Byte length of the slot data (`data_len()` in the source). -/
def SlotBytes.dataLen : SlotBytes → Nat
  | .truncated => 0
  | .buf _ => 105
  | .malformed n => n

/-- Modelled from the spec: `state.rs` (the `Escrow` packing code) is not
under `src/`.  Per the data-model section, a slot is Empty exactly when
it reads as all-zero with `is_initialized = false`, and the testable
round-trip property states that unpacking a destroyed (zeroed and
truncated) slot yields all-zero fields; so the destroyed slot decodes to
`Escrow.zero`.  A 105-byte buffer decodes to the record it encodes, and
any other buffer is rejected as invalid account data. -/
def Escrow.unpack_unchecked : SlotBytes → Except ProgErr Escrow
  | .truncated => .ok Escrow.zero
  | .buf e => .ok e
  | .malformed _ => .error .InvalidAccountData

/-- Modelled from the spec: checked unpack (`Escrow::unpack`, via the
`Pack` trait) additionally requires the decoded record to be
initialized, rejecting an Empty slot as uninitialized. -/
def Escrow.unpack (d : SlotBytes) : Except ProgErr Escrow :=
  match Escrow.unpack_unchecked d with
  | .error e => .error e
  | .ok v => if v.is_initialized then .ok v else .error .UninitializedAccount

/-- A slot is Live when it decodes to an initialized record; otherwise it
is Empty (or unreadable, which no operation treats as Live). -/
def SlotBytes.isLive (d : SlotBytes) : Bool :=
  match Escrow.unpack_unchecked d with
  | .ok e => e.is_initialized
  | .error _ => false

/-- The rent oracle, at the interface the handler consumes:
`is_exempt(lamports, data_len)` holds when `lamports` is at least the
minimum balance for `data_len` bytes. -/
structure Rent where
  minimumBalance : Nat → Nat

/-- `rent.is_exempt(lamports, data_len)`. -/
def Rent.is_exempt (r : Rent) (lamports dataLen : Nat) : Bool :=
  decide (r.minimumBalance dataLen ≤ lamports)

/-- The identity of the SPL token program (`spl_token::id()`), the owner
every token account must have. -/
def splTokenId : Pubkey := 1

/-- The authority under which a delegated call is issued: either the
program-derived authority for seed `"escrow"` (used via `invoke_signed`
with the seed-plus-bump proof) or a user key that signed the
transaction directly (used via `invoke`). -/
inductive AuthId where
  | pda
  | user (k : Pubkey)
deriving DecidableEq

/-- One observable effect of a handler, in program order: the delegated
SPL token calls (`transfer`, `close_account`, `set_authority`) and the
direct writes the handler performs on the maker account and on the
escrow slot (lamport assignment, data assignment). -/
inductive Effect where
  | transfer (source destination : Pubkey) (authority : AuthId) (amount : Nat)
  | closeAccount (account destination : Pubkey) (authority : AuthId)
  | setAuthority (account : Pubkey) (newAuthority : AuthId) (currentAuthority : Pubkey)
  | setLamports (account : Pubkey) (value : Nat)
  | slotSetLamports (value : Nat)
  | slotWriteData (d : SlotBytes)
deriving DecidableEq

/-- Accounts supplied to `process_cancel`, in the order the handler
consumes them: the owner (maker), the owner token account to receive
the refund, the escrow temp (holding) token account, and the escrow
slot.  The token program and pda accounts carry no data the handler
reads. -/
structure CancelInput where
  ownerKey : Pubkey
  ownerIsSigner : Bool
  ownerLamports : Nat
  recvKey : Pubkey
  recvInfo : TokenAccount
  tempKey : Pubkey
  tempInfo : TokenAccount
  escrowLamports : Nat
  escrowData : SlotBytes

/-- Outcome of `process_cancel`: the effect trace and the final values of
the accounts the handler writes. -/
structure CancelOut where
  effects : List Effect
  ownerLamports : Nat
  escrowLamports : Nat
  escrowData : SlotBytes
  result : Option ProgErr
deriving DecidableEq

/-- Outcome of a cancel that failed before performing any write. -/
def CancelOut.abort (i : CancelInput) (e : ProgErr) : CancelOut :=
  { effects := []
    ownerLamports := i.ownerLamports
    escrowLamports := i.escrowLamports
    escrowData := i.escrowData
    result := some e }

/-- `Processor::process_cancel` (`processor.rs` lines 44-124).  The
handler checks the owner signature, unpacks the token accounts and the
escrow record (the record itself is never read afterwards), checks the
mint match, then issues the refund transfer and the close of the temp
account under the program-derived authority, credits the escrow slot
lamports to the owner with `checked_add`, and finally zeroes and
truncates the slot. -/
def process_cancel (i : CancelInput) : CancelOut :=
  if !i.ownerIsSigner then .abort i .MissingRequiredSignature else
  match Escrow.unpack i.escrowData with
  | .error e => .abort i e
  | .ok _escrow_acc_info =>
    if i.recvInfo.mint ≠ i.tempInfo.mint then .abort i EscrowError.ExpectedMintMismatch else
    let cpis : List Effect :=
      [ .transfer i.tempKey i.recvKey .pda i.tempInfo.amount
      , .closeAccount i.tempKey i.ownerKey .pda ]
    match checked_add i.ownerLamports i.escrowLamports with
    | none =>
      { effects := cpis
        ownerLamports := i.ownerLamports
        escrowLamports := i.escrowLamports
        escrowData := i.escrowData
        result := some EscrowError.AmountOverflow }
    | some v =>
      { effects := cpis ++
          [ .setLamports i.ownerKey v
          , .slotSetLamports 0
          , .slotWriteData .truncated ]
        ownerLamports := v
        escrowLamports := 0
        escrowData := .truncated
        result := none }

/-- Accounts supplied to `process_exchange`, in the order the handler
consumes them. -/
structure ExchangeInput where
  takerKey : Pubkey
  takerIsSigner : Bool
  takerSentKey : Pubkey
  takerSentInfo : TokenAccount
  takerRecvKey : Pubkey
  takerRecvInfo : TokenAccount
  tempKey : Pubkey
  tempInfo : TokenAccount
  makerKey : Pubkey
  makerLamports : Nat
  makerRecvKey : Pubkey
  makerRecvInfo : TokenAccount
  escrowLamports : Nat
  escrowData : SlotBytes

/-- Outcome of `process_exchange`: the effect trace and the final values
of the accounts the handler writes. -/
structure ExchangeOut where
  effects : List Effect
  makerLamports : Nat
  escrowLamports : Nat
  escrowData : SlotBytes
  result : Option ProgErr
deriving DecidableEq

/-- Outcome of an exchange that failed before performing any write. -/
def ExchangeOut.abort (i : ExchangeInput) (e : ProgErr) : ExchangeOut :=
  { effects := []
    makerLamports := i.makerLamports
    escrowLamports := i.escrowLamports
    escrowData := i.escrowData
    result := some e }

/-- `Processor::process_exchange` (`processor.rs` lines 126-271).  The
handler checks the taker signature, unpacks the token accounts and the
escrow record, checks the two mint matches, the declared-amount match
against the temp account live balance, the strict balance check against
the record, and the three anti-spoofing identity equalities; it then
transfers the temp balance to the taker under the program-derived
authority, transfers the expected amount from the taker to the maker
under the taker authority, closes the temp account, credits the escrow
slot lamports to the maker with `checked_add`, and finally zeroes and
truncates the slot. -/
def process_exchange (amount_expected : Nat) (i : ExchangeInput) : ExchangeOut :=
  if !i.takerIsSigner then .abort i .MissingRequiredSignature else
  match Escrow.unpack i.escrowData with
  | .error e => .abort i e
  | .ok escrow_acc_info =>
    if i.takerSentInfo.mint ≠ i.makerRecvInfo.mint then .abort i EscrowError.ExpectedMintMismatch else
    if i.takerRecvInfo.mint ≠ i.tempInfo.mint then .abort i EscrowError.ExpectedMintMismatch else
    if amount_expected ≠ i.tempInfo.amount then .abort i EscrowError.ExpectedAmountMismatch else
    if i.takerSentInfo.amount ≤ escrow_acc_info.expected_amount then .abort i EscrowError.NotEnoughBalanceToSent else
    if escrow_acc_info.temp_token_account_pubkey ≠ i.tempKey then .abort i EscrowError.InvalidAccountData else
    if escrow_acc_info.initializer_pubkey ≠ i.makerKey then .abort i EscrowError.InvalidAccountData else
    if escrow_acc_info.initializer_token_to_receive_account_pubkey ≠ i.makerRecvKey then .abort i EscrowError.InvalidAccountData else
    let cpis : List Effect :=
      [ .transfer i.tempKey i.takerRecvKey .pda amount_expected
      , .transfer i.takerSentKey i.makerRecvKey (.user i.takerKey) escrow_acc_info.expected_amount
      , .closeAccount i.tempKey i.makerKey .pda ]
    match checked_add i.makerLamports i.escrowLamports with
    | none =>
      { effects := cpis
        makerLamports := i.makerLamports
        escrowLamports := i.escrowLamports
        escrowData := i.escrowData
        result := some EscrowError.AmountOverflow }
    | some v =>
      { effects := cpis ++
          [ .setLamports i.makerKey v
          , .slotSetLamports 0
          , .slotWriteData .truncated ]
        makerLamports := v
        escrowLamports := 0
        escrowData := .truncated
        result := none }

/-- Accounts supplied to `process_init_escrow`, in the order the handler
consumes them: the initializer (maker), the temp (holding) token
account, the token account to receive the counter-asset (with its
owning program), the escrow slot, and the rent sysvar. -/
structure InitInput where
  initializerKey : Pubkey
  initializerIsSigner : Bool
  tempKey : Pubkey
  recvKey : Pubkey
  recvOwner : Pubkey
  escrowLamports : Nat
  escrowData : SlotBytes
  rent : Rent

/-- Outcome of `process_init_escrow`: the effect trace and the final slot
data. -/
structure InitOut where
  effects : List Effect
  escrowData : SlotBytes
  result : Option ProgErr
deriving DecidableEq

/-- Outcome of an init that failed before performing any write. -/
def InitOut.abort (i : InitInput) (e : ProgErr) : InitOut :=
  { effects := []
    escrowData := i.escrowData
    result := some e }

/-- The Live record that a successful `process_init_escrow` writes. -/
def initRecord (amount : Nat) (i : InitInput) : Escrow :=
  { is_initialized := true
    initializer_pubkey := i.initializerKey
    temp_token_account_pubkey := i.tempKey
    initializer_token_to_receive_account_pubkey := i.recvKey
    expected_amount := amount }

/-- `Processor::process_init_escrow` (`processor.rs` lines 273-339).  The
handler checks the initializer signature, the owning program of the
receive account, the rent exemption of the escrow slot, and that the
slot unpacks (unchecked) to an uninitialized record; it then fills in
the record, packs it into the slot, and issues the `set_authority`
call handing the temp account to the program-derived authority. -/
def process_init_escrow (amount : Nat) (i : InitInput) : InitOut :=
  if !i.initializerIsSigner then .abort i .MissingRequiredSignature else
  if i.recvOwner ≠ splTokenId then .abort i .IncorrectProgramId else
  if !(i.rent.is_exempt i.escrowLamports i.escrowData.dataLen) then .abort i .AccountNotRentExempt else
  match Escrow.unpack_unchecked i.escrowData with
  | .error e => .abort i e
  | .ok escrow_info =>
    if escrow_info.is_initialized then .abort i .AccountAlreadyInitialized else
    { effects :=
        [ .slotWriteData (.buf (initRecord amount i))
        , .setAuthority i.tempKey .pda i.initializerKey ]
      escrowData := .buf (initRecord amount i)
      result := none }

/-- The slot unpacks (unchecked) as an Empty record: the decode
succeeds and the record is uninitialized. -/
def unpacksEmpty (d : SlotBytes) : Bool :=
  match Escrow.unpack_unchecked d with
  | .ok e => !e.is_initialized
  | .error _ => false

/-- A concrete Live record used by the witnesses: maker 10, holding
account 11, maker receive account 12, expected amount 3. -/
def wRec : Escrow :=
  { is_initialized := true
    initializer_pubkey := 10
    temp_token_account_pubkey := 11
    initializer_token_to_receive_account_pubkey := 12
    expected_amount := 3 }

/-- A concrete correctly wired exchange input used by the witnesses:
taker 20 holds 4 of mint 6, the holding account holds 4 of mint 5, the
record demands 3 of mint 6. -/
def wExIn : ExchangeInput :=
  { takerKey := 20, takerIsSigner := true
    takerSentKey := 21, takerSentInfo := { mint := 6, amount := 4 }
    takerRecvKey := 22, takerRecvInfo := { mint := 5, amount := 0 }
    tempKey := 11, tempInfo := { mint := 5, amount := 4 }
    makerKey := 10, makerLamports := 100
    makerRecvKey := 12, makerRecvInfo := { mint := 6, amount := 0 }
    escrowLamports := 50
    escrowData := .buf wRec }

/-- A concrete correctly wired cancel input used by the witnesses: the
caller is identity 40, which differs from the record initializer 10. -/
def wCaIn : CancelInput :=
  { ownerKey := 40, ownerIsSigner := true, ownerLamports := 100
    recvKey := 12, recvInfo := { mint := 5, amount := 0 }
    tempKey := 11, tempInfo := { mint := 5, amount := 4 }
    escrowLamports := 50
    escrowData := .buf wRec }

/-- A concrete init input used by the witnesses: maker 10 opens an
escrow over holding account 11 and receive account 12 in an Empty,
rent-exempt slot. -/
def wInIn : InitInput :=
  { initializerKey := 10, initializerIsSigner := true
    tempKey := 11, recvKey := 12, recvOwner := splTokenId
    escrowLamports := 50, escrowData := .buf Escrow.zero
    rent := { minimumBalance := fun _ => 20 } }

/-- C1: when every Exchange precondition passes, the effects occur in
this order: transfer of the full live balance of the holding account to
the taker receive account under the program-derived authority, transfer
of exactly the record expected amount from the taker send account to
the maker receive account under the taker authority, close of the
holding account reclaiming its storage to the maker, credit of the
escrow slot lamport balance to the maker, and finally the zeroing and
truncation of the escrow slot; the invocation succeeds. -/
theorem exchange_effects_in_order
    (a : Nat) (i : ExchangeInput) (r : Escrow) (v : Nat)
    (hr : Escrow.unpack i.escrowData = .ok r)
    (hs : i.takerIsSigner = true)
    (hm1 : i.takerSentInfo.mint = i.makerRecvInfo.mint)
    (hm2 : i.takerRecvInfo.mint = i.tempInfo.mint)
    (ha : a = i.tempInfo.amount)
    (hb : r.expected_amount < i.takerSentInfo.amount)
    (h1 : r.temp_token_account_pubkey = i.tempKey)
    (h2 : r.initializer_pubkey = i.makerKey)
    (h3 : r.initializer_token_to_receive_account_pubkey = i.makerRecvKey)
    (ho : checked_add i.makerLamports i.escrowLamports = some v) :
    process_exchange a i =
      { effects :=
          [ .transfer i.tempKey i.takerRecvKey .pda i.tempInfo.amount
          , .transfer i.takerSentKey i.makerRecvKey (.user i.takerKey) r.expected_amount
          , .closeAccount i.tempKey i.makerKey .pda
          , .setLamports i.makerKey v
          , .slotSetLamports 0
          , .slotWriteData .truncated ]
        makerLamports := v
        escrowLamports := 0
        escrowData := .truncated
        result := none } := by
  unfold process_exchange
  rw [hr, ho]
  simp [hs, hm1, hm2, ha, h1, h2, h3, Nat.not_le.mpr hb]

/-- C1 witness: the ordered effect trace at the concrete wired input. -/
theorem exchange_effects_in_order_w :
    process_exchange 4 wExIn =
      { effects :=
          [ .transfer 11 22 .pda 4
          , .transfer 21 12 (.user 20) 3
          , .closeAccount 11 10 .pda
          , .setLamports 10 150
          , .slotSetLamports 0
          , .slotWriteData .truncated ]
        makerLamports := 150
        escrowLamports := 0
        escrowData := .truncated
        result := none } :=
  exchange_effects_in_order 4 wExIn wRec 150 rfl rfl rfl rfl rfl
    (by decide) rfl rfl rfl (by decide)

/-- C2: on a Live record, with the earlier checks (signature, the two
mint matches, the declared-amount match, the strict balance check)
passing, any mismatch between the record identities
(`temp_token_account`, `initializer`, `initializer_receive_account`)
and the supplied holding account, maker, or maker receive account makes
the invocation fail with the stale or invalid-reference error
(`EscrowError::InvalidAccountData`), before any transfer is issued. -/
theorem exchange_spoof_rejected
    (a : Nat) (i : ExchangeInput) (r : Escrow)
    (hr : Escrow.unpack i.escrowData = .ok r)
    (hs : i.takerIsSigner = true)
    (hm1 : i.takerSentInfo.mint = i.makerRecvInfo.mint)
    (hm2 : i.takerRecvInfo.mint = i.tempInfo.mint)
    (ha : a = i.tempInfo.amount)
    (hb : r.expected_amount < i.takerSentInfo.amount)
    (hspoof : r.temp_token_account_pubkey ≠ i.tempKey ∨
      r.initializer_pubkey ≠ i.makerKey ∨
      r.initializer_token_to_receive_account_pubkey ≠ i.makerRecvKey) :
    (process_exchange a i).result = some EscrowError.InvalidAccountData ∧
    (process_exchange a i).effects = [] := by
  unfold process_exchange
  rw [hr]
  by_cases c1 : r.temp_token_account_pubkey = i.tempKey <;>
    by_cases c2 : r.initializer_pubkey = i.makerKey <;>
      by_cases c3 : r.initializer_token_to_receive_account_pubkey = i.makerRecvKey <;>
        simp_all [ExchangeOut.abort, Nat.not_le.mpr hb]

/-- C2 witness: the concrete wired input with the maker identity
replaced by 99 (different from the record initializer 10) fails with
`InvalidAccountData` and issues no transfer. -/
theorem exchange_spoof_rejected_w :
    (process_exchange 4 { wExIn with makerKey := 99 }).result =
        some EscrowError.InvalidAccountData ∧
    (process_exchange 4 { wExIn with makerKey := 99 }).effects = [] :=
  exchange_spoof_rejected 4 { wExIn with makerKey := 99 } wRec rfl rfl rfl rfl rfl
    (by decide) (Or.inr (Or.inl (by decide)))

/-- C3: with the signature, mint, and declared-amount checks passing on
a Live record, Exchange fails with the insufficient-balance error
exactly when the taker send account live balance is at most the record
expected amount; in particular a balance equal to the demanded amount
is rejected, and a strictly greater balance passes this check. -/
theorem exchange_balance_check
    (a : Nat) (i : ExchangeInput) (r : Escrow)
    (hr : Escrow.unpack i.escrowData = .ok r)
    (hs : i.takerIsSigner = true)
    (hm1 : i.takerSentInfo.mint = i.makerRecvInfo.mint)
    (hm2 : i.takerRecvInfo.mint = i.tempInfo.mint)
    (ha : a = i.tempInfo.amount) :
    (process_exchange a i).result = some EscrowError.NotEnoughBalanceToSent ↔
      i.takerSentInfo.amount ≤ r.expected_amount := by
  by_cases hb : i.takerSentInfo.amount ≤ r.expected_amount <;>
    by_cases c1 : r.temp_token_account_pubkey = i.tempKey <;>
      by_cases c2 : r.initializer_pubkey = i.makerKey <;>
        by_cases c3 : r.initializer_token_to_receive_account_pubkey = i.makerRecvKey <;>
          rcases hadd : checked_add i.makerLamports i.escrowLamports with _ | v <;>
            simp_all [process_exchange, ExchangeOut.abort,
              EscrowError.NotEnoughBalanceToSent, EscrowError.AmountOverflow,
              EscrowError.InvalidAccountData]
  all_goals rw [if_neg (Nat.not_le.mpr hb)]
  all_goals simp [Nat.not_le.mpr hb]

/-- C3 witness: at the concrete wired input with the taker balance
lowered to exactly the demanded amount 3, Exchange fails with the
insufficient-balance error. -/
theorem exchange_balance_check_w :
    (process_exchange 4
      { wExIn with takerSentInfo := { mint := 6, amount := 3 } }).result =
      some EscrowError.NotEnoughBalanceToSent :=
  (exchange_balance_check 4 { wExIn with takerSentInfo := { mint := 6, amount := 3 } }
    wRec rfl rfl rfl rfl rfl).mpr (by decide)

/-- C4: Cancel never compares the calling signer with the stored
`initializer` field: whenever the caller signed, the mints match, the
slot unpacks as a Live record, and the lamport credit does not
overflow, the invocation succeeds and pays out to the caller — with no
constraint at all relating the caller identity to
`r.initializer_pubkey`. -/
theorem cancel_ignores_initializer
    (i : CancelInput) (r : Escrow) (v : Nat)
    (hr : Escrow.unpack i.escrowData = .ok r)
    (hs : i.ownerIsSigner = true)
    (hm : i.recvInfo.mint = i.tempInfo.mint)
    (ho : checked_add i.ownerLamports i.escrowLamports = some v) :
    (process_cancel i).result = none ∧
    (process_cancel i).effects =
      [ .transfer i.tempKey i.recvKey .pda i.tempInfo.amount
      , .closeAccount i.tempKey i.ownerKey .pda
      , .setLamports i.ownerKey v
      , .slotSetLamports 0
      , .slotWriteData .truncated ] := by
  unfold process_cancel
  rw [hr, ho]
  simp [hs, hm]

/-- C4 witness: the concrete cancel input whose caller (40) differs from
the record initializer (10) succeeds and pays out to the caller. -/
theorem cancel_ignores_initializer_w :
    wCaIn.ownerKey ≠ wRec.initializer_pubkey ∧
    (process_cancel wCaIn).result = none ∧
    (process_cancel wCaIn).effects =
      [ .transfer 11 12 .pda 4
      , .closeAccount 11 40 .pda
      , .setLamports 40 150
      , .slotSetLamports 0
      , .slotWriteData .truncated ] :=
  ⟨by decide, cancel_ignores_initializer wCaIn wRec 150 rfl rfl rfl (by decide)⟩

/-- C5: the outcome of Cancel is independent of every stored field of
the unpacked escrow record: two runs over slots that both unpack as
Live records, with every supplied account identical, produce the same
result, the same effect trace, and the same final lamport balances, and
the same final slot data whenever either run succeeds. -/
theorem cancel_independent_of_record
    (i : CancelInput) (r1 r2 : Escrow)
    (h1 : r1.is_initialized = true)
    (h2 : r2.is_initialized = true) :
    (process_cancel { i with escrowData := .buf r1 }).result =
      (process_cancel { i with escrowData := .buf r2 }).result ∧
    (process_cancel { i with escrowData := .buf r1 }).effects =
      (process_cancel { i with escrowData := .buf r2 }).effects ∧
    (process_cancel { i with escrowData := .buf r1 }).ownerLamports =
      (process_cancel { i with escrowData := .buf r2 }).ownerLamports ∧
    (process_cancel { i with escrowData := .buf r1 }).escrowLamports =
      (process_cancel { i with escrowData := .buf r2 }).escrowLamports ∧
    ((process_cancel { i with escrowData := .buf r1 }).result = none →
      (process_cancel { i with escrowData := .buf r1 }).escrowData =
        (process_cancel { i with escrowData := .buf r2 }).escrowData) := by
  by_cases hs : i.ownerIsSigner <;>
    by_cases hm : i.recvInfo.mint = i.tempInfo.mint <;>
      rcases hadd : checked_add i.ownerLamports i.escrowLamports with _ | v <;>
        simp_all [process_cancel, CancelOut.abort, Escrow.unpack,
          Escrow.unpack_unchecked, EscrowError.ExpectedMintMismatch,
          EscrowError.AmountOverflow]

/-- C5 witness: the concrete cancel input run over two Live records that
differ in every stored field produces identical results, effects, and
balances. -/
theorem cancel_independent_of_record_w :
    (process_cancel { wCaIn with escrowData := .buf wRec }).result =
      (process_cancel { wCaIn with
        escrowData := .buf
          { is_initialized := true, initializer_pubkey := 77
            temp_token_account_pubkey := 78
            initializer_token_to_receive_account_pubkey := 79
            expected_amount := 1000000 } }).result ∧
    (process_cancel { wCaIn with escrowData := .buf wRec }).effects =
      (process_cancel { wCaIn with
        escrowData := .buf
          { is_initialized := true, initializer_pubkey := 77
            temp_token_account_pubkey := 78
            initializer_token_to_receive_account_pubkey := 79
            expected_amount := 1000000 } }).effects :=
  ⟨(cancel_independent_of_record wCaIn wRec
      { is_initialized := true, initializer_pubkey := 77
        temp_token_account_pubkey := 78
        initializer_token_to_receive_account_pubkey := 79
        expected_amount := 1000000 } rfl rfl).1,
   (cancel_independent_of_record wCaIn wRec
      { is_initialized := true, initializer_pubkey := 77
        temp_token_account_pubkey := 78
        initializer_token_to_receive_account_pubkey := 79
        expected_amount := 1000000 } rfl rfl).2.1⟩

/-- C6: every error aborts with zero persisted side effects.  For each
of the three operations, any error outcome leaves the escrow slot (data
and lamports) and the credited account exactly as supplied, and every
error other than the arithmetic-overflow error raised while crediting
reclaimed storage (which the handlers raise only after the validations,
and still before the record-clearing mutation) is raised before any
delegated call is issued. -/
theorem errors_leave_no_persisted_effects
    (a : Nat) (ii : InitInput) (ei : ExchangeInput) (ci : CancelInput) :
    (∀ e, (process_init_escrow a ii).result = some e →
      (process_init_escrow a ii).effects = [] ∧
      (process_init_escrow a ii).escrowData = ii.escrowData) ∧
    (∀ e, (process_exchange a ei).result = some e →
      (process_exchange a ei).makerLamports = ei.makerLamports ∧
      (process_exchange a ei).escrowLamports = ei.escrowLamports ∧
      (process_exchange a ei).escrowData = ei.escrowData ∧
      (e ≠ EscrowError.AmountOverflow → (process_exchange a ei).effects = [])) ∧
    (∀ e, (process_cancel ci).result = some e →
      (process_cancel ci).ownerLamports = ci.ownerLamports ∧
      (process_cancel ci).escrowLamports = ci.escrowLamports ∧
      (process_cancel ci).escrowData = ci.escrowData ∧
      (e ≠ EscrowError.AmountOverflow → (process_cancel ci).effects = [])) := by
  refine ⟨?_, ?_, ?_⟩
  · unfold process_init_escrow
    repeat' split
    all_goals intro e h
    all_goals simp_all [InitOut.abort]
  · unfold process_exchange
    repeat' split
    all_goals intro e h
    all_goals simp_all [ExchangeOut.abort, EscrowError.AmountOverflow]
  · unfold process_cancel
    repeat' split
    all_goals intro e h
    all_goals simp_all [CancelOut.abort, EscrowError.AmountOverflow]

/-- C6 witness: an init on an already Live slot, an exchange whose
declared amount mismatches the holding balance, and a cancel with a
mint mismatch all fail while issuing no effect and leaving the slot
untouched. -/
theorem errors_leave_no_persisted_effects_w :
    ((process_init_escrow 9
        { initializerKey := 10, initializerIsSigner := true
          tempKey := 11, recvKey := 12, recvOwner := splTokenId
          escrowLamports := 50, escrowData := .buf wRec
          rent := { minimumBalance := fun _ => 0 } }).effects = [] ∧
      (process_init_escrow 9
        { initializerKey := 10, initializerIsSigner := true
          tempKey := 11, recvKey := 12, recvOwner := splTokenId
          escrowLamports := 50, escrowData := .buf wRec
          rent := { minimumBalance := fun _ => 0 } }).escrowData = .buf wRec) ∧
    ((process_exchange 5 wExIn).makerLamports = 100 ∧
      (process_exchange 5 wExIn).escrowLamports = 50 ∧
      (process_exchange 5 wExIn).escrowData = .buf wRec ∧
      (process_exchange 5 wExIn).effects = []) ∧
    ((process_cancel { wCaIn with recvInfo := { mint := 7, amount := 0 } }).ownerLamports = 100 ∧
      (process_cancel { wCaIn with recvInfo := { mint := 7, amount := 0 } }).escrowLamports = 50 ∧
      (process_cancel { wCaIn with recvInfo := { mint := 7, amount := 0 } }).escrowData = .buf wRec ∧
      (process_cancel { wCaIn with recvInfo := { mint := 7, amount := 0 } }).effects = []) := by
  have h := errors_leave_no_persisted_effects 5
    { initializerKey := 10, initializerIsSigner := true
      tempKey := 11, recvKey := 12, recvOwner := splTokenId
      escrowLamports := 50, escrowData := .buf wRec
      rent := { minimumBalance := fun _ => 0 } }
    wExIn
    { wCaIn with recvInfo := { mint := 7, amount := 0 } }
  have h1 := h.1 ProgErr.AccountAlreadyInitialized (by decide)
  have h2 := h.2.1 EscrowError.ExpectedAmountMismatch (by decide)
  have h3 := h.2.2 EscrowError.ExpectedMintMismatch (by decide)
  have h5 := errors_leave_no_persisted_effects 9
    { initializerKey := 10, initializerIsSigner := true
      tempKey := 11, recvKey := 12, recvOwner := splTokenId
      escrowLamports := 50, escrowData := .buf wRec
      rent := { minimumBalance := fun _ => 0 } }
    wExIn
    { wCaIn with recvInfo := { mint := 7, amount := 0 } }
  have h6 := h5.1 ProgErr.AccountAlreadyInitialized (by decide)
  exact ⟨h6, ⟨h2.1, h2.2.1, h2.2.2.1, h2.2.2.2 (by decide)⟩,
    ⟨h3.1, h3.2.1, h3.2.2.1, h3.2.2.2 (by decide)⟩⟩

/-- Helper: a successful init implies each of its preconditions. -/
theorem init_success_conds (a : Nat) (i : InitInput) :
    (process_init_escrow a i).result = none →
    i.initializerIsSigner = true ∧
    i.recvOwner = splTokenId ∧
    i.rent.minimumBalance i.escrowData.dataLen ≤ i.escrowLamports ∧
    unpacksEmpty i.escrowData = true := by
  unfold process_init_escrow
  repeat' split
  all_goals intro h
  all_goals simp_all [InitOut.abort, Rent.is_exempt, unpacksEmpty]

/-- Helper: a successful init leaves the slot holding the packed Live
record built from the supplied accounts and amount. -/
theorem init_success_data (a : Nat) (i : InitInput) :
    (process_init_escrow a i).result = none →
    (process_init_escrow a i).escrowData = .buf (initRecord a i) := by
  unfold process_init_escrow
  repeat' split
  all_goals intro h
  all_goals simp_all [InitOut.abort]

/-- Helper: checked unpack succeeds only on a Live slot. -/
theorem isLive_of_unpack_ok (d : SlotBytes) (r : Escrow)
    (h : Escrow.unpack d = .ok r) : d.isLive = true := by
  cases d <;>
    simp_all [Escrow.unpack, Escrow.unpack_unchecked, SlotBytes.isLive, Escrow.zero]
  rename_i e
  by_cases hi : e.is_initialized <;> simp_all

/-- C7: Initialize succeeds only when the maker signed, the receive
account is owned by the asset ledger, the escrow slot meets the
rent-exemption threshold, and the slot unpacks as Empty; on success it
writes a Live record with `initializer = maker`,
`temp_token_account = holding_account`,
`initializer_receive_account = receive_account` and
`expected_amount = amount`, and then issues the authority reassignment
of the holding account to the program-derived authority; and a second
Initialize on the resulting slot always fails with a state-conflict
error (already-initialized, or not-rent-exempt in case the slot byte
length changed), regardless of the second amount. -/
theorem init_spec
    (a : Nat) (i : InitInput) :
    ((process_init_escrow a i).result = none →
      i.initializerIsSigner = true ∧
      i.recvOwner = splTokenId ∧
      i.rent.minimumBalance i.escrowData.dataLen ≤ i.escrowLamports ∧
      unpacksEmpty i.escrowData = true) ∧
    ((process_init_escrow a i).result = none →
      (process_init_escrow a i).escrowData = .buf (initRecord a i) ∧
      (process_init_escrow a i).effects =
        [ .slotWriteData (.buf (initRecord a i))
        , .setAuthority i.tempKey .pda i.initializerKey ]) ∧
    (∀ a2, (process_init_escrow a i).result = none →
      (process_init_escrow a2
          { i with escrowData := (process_init_escrow a i).escrowData }).result =
        some .AccountAlreadyInitialized ∨
      (process_init_escrow a2
          { i with escrowData := (process_init_escrow a i).escrowData }).result =
        some .AccountNotRentExempt) := by
  refine ⟨fun h => init_success_conds a i h, ?_, ?_⟩
  · intro h
    refine ⟨init_success_data a i h, ?_⟩
    revert h
    unfold process_init_escrow
    repeat' split
    all_goals intro h
    all_goals simp_all [InitOut.abort]
  · intro a2 h
    obtain ⟨hsig, hown, -, -⟩ := init_success_conds a i h
    rw [init_success_data a i h]
    by_cases hrent2 : i.rent.minimumBalance 105 ≤ i.escrowLamports
    · left
      unfold process_init_escrow
      simp [hsig, hown, Rent.is_exempt, SlotBytes.dataLen, hrent2,
        Escrow.unpack_unchecked, initRecord, InitOut.abort]
    · right
      unfold process_init_escrow
      simp [hsig, hown, Rent.is_exempt, SlotBytes.dataLen, hrent2, InitOut.abort]

/-- C7 witness: a concrete Initialize with amount 3 on an Empty
rent-exempt slot writes the Live record and then reassigns the holding
account authority, and a second Initialize on the resulting slot with a
different amount fails with a state-conflict error. -/
theorem init_spec_w :
    (process_init_escrow 3 wInIn).escrowData = .buf (initRecord 3 wInIn) ∧
    (process_init_escrow 3 wInIn).effects =
      [ .slotWriteData (.buf (initRecord 3 wInIn))
      , .setAuthority 11 .pda 10 ] ∧
    ((process_init_escrow 7
        { wInIn with escrowData := (process_init_escrow 3 wInIn).escrowData }).result =
      some .AccountAlreadyInitialized ∨
     (process_init_escrow 7
        { wInIn with escrowData := (process_init_escrow 3 wInIn).escrowData }).result =
      some .AccountNotRentExempt) := by
  have h := init_spec 3 wInIn
  have h2 := h.2.1 (by decide)
  exact ⟨h2.1, h2.2, h.2.2 7 (by decide)⟩

/-- C8: Initialize(amount = A) followed immediately by Cancel by the
maker transfers the full live balance of the holding account back to
the supplied receive account, closes the holding account reclaiming its
storage to the maker, credits the slot lamport balance to the maker,
and leaves the escrow slot zeroed and truncated, so that a subsequent
unpack of the slot yields the all-zero record. -/
theorem init_then_cancel_roundtrip
    (a : Nat) (i : InitInput) (c : CancelInput) (v : Nat)
    (hinit : (process_init_escrow a i).result = none)
    (hdata : c.escrowData = (process_init_escrow a i).escrowData)
    (_howner : c.ownerKey = i.initializerKey)
    (_hrecv : c.recvKey = i.recvKey)
    (hs : c.ownerIsSigner = true)
    (hm : c.recvInfo.mint = c.tempInfo.mint)
    (ho : checked_add c.ownerLamports c.escrowLamports = some v) :
    (process_cancel c).result = none ∧
    (process_cancel c).effects =
      [ .transfer c.tempKey c.recvKey .pda c.tempInfo.amount
      , .closeAccount c.tempKey c.ownerKey .pda
      , .setLamports c.ownerKey v
      , .slotSetLamports 0
      , .slotWriteData .truncated ] ∧
    (process_cancel c).ownerLamports = c.ownerLamports + c.escrowLamports ∧
    (process_cancel c).escrowLamports = 0 ∧
    (process_cancel c).escrowData = .truncated ∧
    Escrow.unpack_unchecked (process_cancel c).escrowData = .ok Escrow.zero := by
  have hd := init_success_data a i hinit
  rw [hd] at hdata
  have hu : Escrow.unpack c.escrowData = .ok (initRecord a i) := by
    rw [hdata]; simp [Escrow.unpack, Escrow.unpack_unchecked, initRecord]
  have hv : v = c.ownerLamports + c.escrowLamports := by
    unfold checked_add at ho
    split at ho <;> simp_all
  unfold process_cancel
  rw [hu, ho]
  simp [hs, hm, hv, Escrow.unpack_unchecked]

/-- C8 witness: Initialize(3) into the concrete Empty slot, then Cancel
with the maker accounts, refunds the holding balance 4, credits the 50
slot lamports to the maker, and leaves a truncated slot that unpacks to
the all-zero record. -/
theorem init_then_cancel_roundtrip_w :
    (process_cancel
      { ownerKey := 10, ownerIsSigner := true, ownerLamports := 100
        recvKey := 12, recvInfo := { mint := 5, amount := 0 }
        tempKey := 11, tempInfo := { mint := 5, amount := 4 }
        escrowLamports := 50
        escrowData := .buf (initRecord 3 wInIn) }).result = none ∧
    (process_cancel
      { ownerKey := 10, ownerIsSigner := true, ownerLamports := 100
        recvKey := 12, recvInfo := { mint := 5, amount := 0 }
        tempKey := 11, tempInfo := { mint := 5, amount := 4 }
        escrowLamports := 50
        escrowData := .buf (initRecord 3 wInIn) }).effects =
      [ .transfer 11 12 .pda 4
      , .closeAccount 11 10 .pda
      , .setLamports 10 150
      , .slotSetLamports 0
      , .slotWriteData .truncated ] ∧
    Escrow.unpack_unchecked
      (process_cancel
        { ownerKey := 10, ownerIsSigner := true, ownerLamports := 100
          recvKey := 12, recvInfo := { mint := 5, amount := 0 }
          tempKey := 11, tempInfo := { mint := 5, amount := 4 }
          escrowLamports := 50
          escrowData := .buf (initRecord 3 wInIn) }).escrowData = .ok Escrow.zero := by
  have h := init_then_cancel_roundtrip 3 wInIn
    { ownerKey := 10, ownerIsSigner := true, ownerLamports := 100
      recvKey := 12, recvInfo := { mint := 5, amount := 0 }
      tempKey := 11, tempInfo := { mint := 5, amount := 4 }
      escrowLamports := 50
      escrowData := .buf (initRecord 3 wInIn) }
    150 (by decide) (by decide) rfl rfl rfl rfl (by decide)
  exact ⟨h.1, h.2.1, h.2.2.2.2.2⟩

/-- C9: the Exchange preconditions are checked in the stated order —
signer proof, the asset-type matches, the declared-amount match against
the holding account live balance, the strict taker-balance check, and
the anti-spoofing identity equalities — and the first failing check
determines the returned error, with the input aborted untouched (no
effects, all writable accounts unchanged); in particular an input
failing both the asset-type check and the amount check returns the mint
mismatch error. -/
theorem exchange_check_order
    (a : Nat) (i : ExchangeInput) (r : Escrow)
    (hr : Escrow.unpack i.escrowData = .ok r) :
    (i.takerIsSigner = false →
      process_exchange a i = .abort i .MissingRequiredSignature) ∧
    (i.takerIsSigner = true →
      (i.takerSentInfo.mint ≠ i.makerRecvInfo.mint ∨
        i.takerRecvInfo.mint ≠ i.tempInfo.mint) →
      process_exchange a i = .abort i EscrowError.ExpectedMintMismatch) ∧
    (i.takerIsSigner = true →
      i.takerSentInfo.mint = i.makerRecvInfo.mint →
      i.takerRecvInfo.mint = i.tempInfo.mint →
      a ≠ i.tempInfo.amount →
      process_exchange a i = .abort i EscrowError.ExpectedAmountMismatch) ∧
    (i.takerIsSigner = true →
      i.takerSentInfo.mint = i.makerRecvInfo.mint →
      i.takerRecvInfo.mint = i.tempInfo.mint →
      a = i.tempInfo.amount →
      i.takerSentInfo.amount ≤ r.expected_amount →
      process_exchange a i = .abort i EscrowError.NotEnoughBalanceToSent) ∧
    (i.takerIsSigner = true →
      i.takerSentInfo.mint = i.makerRecvInfo.mint →
      i.takerRecvInfo.mint = i.tempInfo.mint →
      a = i.tempInfo.amount →
      r.expected_amount < i.takerSentInfo.amount →
      (r.temp_token_account_pubkey ≠ i.tempKey ∨
        r.initializer_pubkey ≠ i.makerKey ∨
        r.initializer_token_to_receive_account_pubkey ≠ i.makerRecvKey) →
      process_exchange a i = .abort i EscrowError.InvalidAccountData) := by
  refine ⟨?_, ?_, ?_, ?_, ?_⟩
  · intro hs
    unfold process_exchange
    simp [hs]
  · intro hs hm
    unfold process_exchange
    rw [hr]
    by_cases h1 : i.takerSentInfo.mint = i.makerRecvInfo.mint <;>
      rcases hm with hm | hm <;> simp_all
  · intro hs hm1 hm2 ha
    unfold process_exchange
    rw [hr]
    simp [hs, hm1, hm2, ha]
  · intro hs hm1 hm2 ha hb
    unfold process_exchange
    rw [hr]
    simp [hs, hm1, hm2, ha, hb]
  · intro hs hm1 hm2 ha hb hspoof
    unfold process_exchange
    rw [hr]
    by_cases c1 : r.temp_token_account_pubkey = i.tempKey <;>
      by_cases c2 : r.initializer_pubkey = i.makerKey <;>
        by_cases c3 : r.initializer_token_to_receive_account_pubkey = i.makerRecvKey <;>
          simp_all [Nat.not_le.mpr hb]

/-- C9 witness: an input exhibiting both an asset-type mismatch (taker
sends mint 9 where the maker receives mint 6) and a declared-amount
mismatch (5 declared against live balance 4) fails with the mint
mismatch error and no effects. -/
theorem exchange_check_order_w :
    (5 : Nat) ≠ (wExIn.tempInfo.amount : Nat) ∧
    process_exchange 5 { wExIn with takerSentInfo := { mint := 9, amount := 4 } } =
      ExchangeOut.abort { wExIn with takerSentInfo := { mint := 9, amount := 4 } }
        EscrowError.ExpectedMintMismatch :=
  ⟨by decide,
   (exchange_check_order 5 { wExIn with takerSentInfo := { mint := 9, amount := 4 } }
      wRec rfl).2.1 rfl (Or.inl (by decide))⟩

/-- Helper: a slot that unpacks (unchecked) as an Empty record is not
Live. -/
theorem isLive_false_of_unpacksEmpty (d : SlotBytes)
    (h : unpacksEmpty d = true) : d.isLive = false := by
  cases d <;>
    simp_all [unpacksEmpty, SlotBytes.isLive, Escrow.unpack_unchecked, Escrow.zero]

set_option maxHeartbeats 2000000 in
/-- C10: viewing the escrow slot as {Empty, Live} (Live exactly when it
decodes to an initialized record), a successful Initialize moves the
slot from Empty to Live, a successful Exchange or Cancel moves it from
Live to Empty, and any failing operation leaves the slot data — hence
its state — unchanged; so Initialize is the only Empty-to-Live
transition, Exchange and Cancel are the only Live-to-Empty transitions,
and no operation performs a Live-to-Live change of a record. -/
theorem slot_state_machine
    (a : Nat) (ii : InitInput) (ei : ExchangeInput) (ci : CancelInput) :
    ((process_init_escrow a ii).result = none →
      ii.escrowData.isLive = false ∧
      (process_init_escrow a ii).escrowData.isLive = true) ∧
    ((process_init_escrow a ii).result ≠ none →
      (process_init_escrow a ii).escrowData = ii.escrowData) ∧
    ((process_exchange a ei).result = none →
      ei.escrowData.isLive = true ∧
      (process_exchange a ei).escrowData.isLive = false) ∧
    ((process_exchange a ei).result ≠ none →
      (process_exchange a ei).escrowData = ei.escrowData) ∧
    ((process_cancel ci).result = none →
      ci.escrowData.isLive = true ∧
      (process_cancel ci).escrowData.isLive = false) ∧
    ((process_cancel ci).result ≠ none →
      (process_cancel ci).escrowData = ci.escrowData) := by
  refine ⟨?_, ?_, ?_, ?_, ?_, ?_⟩
  · intro h
    obtain ⟨-, -, -, hemp⟩ := init_success_conds a ii h
    refine ⟨isLive_false_of_unpacksEmpty _ hemp, ?_⟩
    rw [init_success_data a ii h]
    simp [SlotBytes.isLive, Escrow.unpack_unchecked, initRecord]
  · unfold process_init_escrow
    repeat' split
    all_goals intro h
    all_goals simp_all [InitOut.abort]
  · intro h
    have hex : ∃ r, Escrow.unpack ei.escrowData = .ok r := by
      revert h
      unfold process_exchange
      repeat' split
      all_goals intro h
      all_goals simp_all [ExchangeOut.abort]
    obtain ⟨r, hrr⟩ := hex
    refine ⟨isLive_of_unpack_ok _ _ hrr, ?_⟩
    have hfin : (process_exchange a ei).escrowData = .truncated := by
      revert h
      unfold process_exchange
      repeat' split
      all_goals intro h
      all_goals simp_all [ExchangeOut.abort]
    rw [hfin]
    simp [SlotBytes.isLive, Escrow.unpack_unchecked, Escrow.zero]
  · unfold process_exchange
    repeat' split
    all_goals intro h
    all_goals simp_all [ExchangeOut.abort]
  · intro h
    have hex : ∃ r, Escrow.unpack ci.escrowData = .ok r := by
      revert h
      unfold process_cancel
      repeat' split
      all_goals intro h
      all_goals simp_all [CancelOut.abort]
    obtain ⟨r, hrr⟩ := hex
    refine ⟨isLive_of_unpack_ok _ _ hrr, ?_⟩
    have hfin : (process_cancel ci).escrowData = .truncated := by
      revert h
      unfold process_cancel
      repeat' split
      all_goals intro h
      all_goals simp_all [CancelOut.abort]
    rw [hfin]
    simp [SlotBytes.isLive, Escrow.unpack_unchecked, Escrow.zero]
  · unfold process_cancel
    repeat' split
    all_goals intro h
    all_goals simp_all [CancelOut.abort]

/-- C10 witness: the concrete Initialize moves the Empty slot to Live,
and the concrete Exchange and Cancel each move a Live slot to a
non-Live (destroyed) slot. -/
theorem slot_state_machine_w :
    (wInIn.escrowData.isLive = false ∧
      (process_init_escrow 3 wInIn).escrowData.isLive = true) ∧
    (wExIn.escrowData.isLive = true ∧
      (process_exchange 4 wExIn).escrowData.isLive = false) ∧
    (wCaIn.escrowData.isLive = true ∧
      (process_cancel wCaIn).escrowData.isLive = false) :=
  ⟨(slot_state_machine 3 wInIn wExIn wCaIn).1 (by decide),
   (slot_state_machine 4 wInIn wExIn wCaIn).2.2.1 (by decide),
   (slot_state_machine 0 wInIn wExIn wCaIn).2.2.2.2.1 (by decide)⟩
